import Mathlib

/-!
Verification of the event-driven refresh and image-compositing core of the
`ha-nl-weather` Home Assistant integration (KNMI weather data).

The development shallowly embeds, from the Python sources:

* the notification-event refresh coordinators
  (`custom_components/nl_weather/coordinator.py`:
  `NLWeatherAutoEDRCoordinator.get_coverage_datetime` and
  `NLWeatherManualEDRCoordinator.get_coverage_datetime`),
* the MQTT notification listener (`notification_service.py`),
* the radar image compositor's single-flight guard and tick schedule
  (`custom_components/nl_weather/camera.py`),
* the coverage/location resolver
  (`custom_components/nl_weather/KNMI/helpers.py`, `edr.py`).

Timestamps (`datetime` values) are embedded as integers (minutes since an
arbitrary epoch); opaque payloads (coverages, image bytes) as natural-number
identifiers.  Python exceptions are embedded as explicit `Except` results.
-/

namespace NLWeather

/-! ## Refresh coordinators (`coordinator.py`)

`NLWeatherAutoEDRCoordinator.get_coverage_datetime` (lines 129-155) and
`NLWeatherManualEDRCoordinator.get_coverage_datetime` (lines 186-212) share
the same retry skeleton and differ only in the skip test:

* Auto:   `if filename_datetime <  self._latest_filename_datetime: return`
* Manual: `if filename_datetime <= self._latest_filename_datetime: return`

The body then runs `for _ in range(3): await asyncio.sleep(15); try: fetch
... except (NotFoundError, ServerError): continue`, committing
`_latest_filename_datetime` and publishing the prepared data on first
success, logging a warning (and keeping prior state) after three failures,
and letting any other exception propagate out of the callback.
-/

/-- Error taxonomy of the EDR client (`KNMI/edr.py` lines 93-107). -/
inductive FetchErr
  | notFound
  | serverError
  | tokenInvalid
  | invalidRequest
  deriving DecidableEq, Repr

/-- Outcome of one call to the EDR fetch (`get_cube_coverages` /
`get_location_coverage`): either a payload (opaque id) or a raised error. -/
inductive FetchResult
  | ok (d : Nat)
  | err (e : FetchErr)
  deriving DecidableEq, Repr

/-- The two dedupe policies found in `coordinator.py`: the Auto coordinator
skips an event iff its version is strictly older (`<`), the Manual
coordinator (and `weather.py`) iff it is older-or-equal (`<=`). -/
inductive DedupeMode
  | strict
  | inclusive
  deriving DecidableEq, Repr

/-- `filename_datetime < self._latest_filename_datetime` resp.
`filename_datetime <= self._latest_filename_datetime`. -/
def skipEvent (mode : DedupeMode) (v lastKnown : Int) : Bool :=
  match mode with
  | .strict => v < lastKnown
  | .inclusive => v ≤ lastKnown

/-- Mutable coordinator state: `_latest_filename_datetime` plus the last
published data (what `async_set_updated_data` last received). -/
structure CoordState where
  lastKnown : Int
  data : Option Nat
  deriving DecidableEq, Repr

/-- Observable actions of one callback invocation, in order. -/
inductive CoordAction
  | sleep (secs : Nat)
  | fetchAttempt (v : Int)
  | publish (d : Nat)
  | warn
  deriving DecidableEq, Repr

/-- The `for _ in range(3)` retry loop of `get_coverage_datetime`, with
`remaining` iterations left and `attempt` fetches already made.  `oracle`
gives the outcome of each successive fetch.  Returns the final state, the
trace of actions, and `Except.error e` when an uncaught exception `e`
propagates out of the callback. -/
def runAttempts (oracle : Nat → FetchResult) (v : Int) (st : CoordState) :
    Nat → Nat → CoordState × List CoordAction × Except FetchErr Unit
  | _, 0 => (st, [.warn], .ok ())
  | attempt, remaining + 1 =>
    match oracle attempt with
    | .ok d =>
      ({ lastKnown := v, data := some d },
       [.sleep 15, .fetchAttempt v, .publish d], .ok ())
    | .err .notFound =>
      let r := runAttempts oracle v st (attempt + 1) remaining
      (r.1, .sleep 15 :: .fetchAttempt v :: r.2.1, r.2.2)
    | .err .serverError =>
      let r := runAttempts oracle v st (attempt + 1) remaining
      (r.1, .sleep 15 :: .fetchAttempt v :: r.2.1, r.2.2)
    | .err e => (st, [.sleep 15, .fetchAttempt v], .error e)

/-- One invocation of the notification callback
`get_coverage_datetime(event)` with embedded version `v`. -/
def get_coverage_datetime (mode : DedupeMode) (oracle : Nat → FetchResult)
    (st : CoordState) (v : Int) :
    CoordState × List CoordAction × Except FetchErr Unit :=
  if skipEvent mode v st.lastKnown then (st, [], .ok ())
  else runAttempts oracle v st 0 3

/-- Process a sequence of notification events, each fetch succeeding on its
first attempt with payload `dataOf v` (the coverage for version `v`). -/
def processEvents (mode : DedupeMode) (dataOf : Int → Nat)
    (st : CoordState) : List Int → CoordState × List CoordAction
  | [] => (st, [])
  | v :: rest =>
    let r := get_coverage_datetime mode (fun _ => .ok (dataOf v)) st v
    let t := processEvents mode dataOf r.1 rest
    (t.1, r.2.1 ++ t.2)

/-- Versions actually fetched in a trace, in order. -/
def fetchedVersions (tr : List CoordAction) : List Int :=
  tr.filterMap fun a => match a with
    | .fetchAttempt v => some v
    | _ => none

/-! ## Notification listener (`notification_service.py`)

`NotificationService` owns `self._callbacks`, a dict pre-seeded with three
dataset keys, each mapping to a dict from subscriber identifier to
callback.  `handle_message` (lines 63-69) looks up
`self._callbacks[event["data"]["datasetName"]]` — a `KeyError` when the
dataset is not a pre-seeded key — and `asyncio.gather`s all registered
callbacks.  `run` (lines 46-61) is `while True: connect, subscribe, pump
messages`, catching `MqttError` and any other `Exception` with a fixed
30-second sleep before reconnecting; `asyncio.CancelledError` is not an
`Exception` and ends the loop. -/

/-- A parsed MQTT message: `event["data"]["datasetName"]` plus an opaque
payload id. -/
structure Msg where
  datasetName : String
  payload : Nat
  deriving DecidableEq, Repr

/-- Callbacks are opaque ids (the coordinator callables registered). -/
abbrev CbId := Nat

/-- Python dict lookup `d[k]` as an assoc-list search (`none` = `KeyError`
at the call site). -/
def dictLookup {α : Type} (k : String) : List (String × α) → Option α
  | [] => none
  | (k₀, v) :: rest => if k₀ = k then some v else dictLookup k rest

/-- Python dict item assignment `d[k] = v`: replace in place when the key
exists, append otherwise (insertion order preserved). -/
def dictSet {α : Type} (k : String) (v : α) :
    List (String × α) → List (String × α)
  | [] => [(k, v)]
  | (k₀, v₀) :: rest =>
    if k₀ = k then (k, v) :: rest else (k₀, v₀) :: dictSet k v rest

/-- The listener's mutable callback table. -/
structure NotificationService where
  callbacks : List (String × List (String × CbId))
  deriving DecidableEq, Repr

/-- `NotificationService.__init__`: exactly three dataset keys, each with
an empty callback dict. -/
def NotificationService.init : NotificationService :=
  ⟨[("10-minute-in-situ-meteorological-observations", []),
    ("radar_forecast", []),
    ("harmonie_arome_cy43_p1", [])]⟩

/-- Python-level exceptions surfacing in the listener. -/
inductive PyErr
  | keyError (k : String)
  | cbError (c : CbId)
  deriving DecidableEq, Repr

/-- `set_callback(dataset, identifier, callback)`:
`self._callbacks[dataset][identifier] = callback`.  The outer subscript
raises `KeyError` when `dataset` is not one of the pre-seeded keys. -/
def set_callback (ns : NotificationService) (dataset identifier : String)
    (cb : CbId) : Except PyErr NotificationService :=
  match dictLookup dataset ns.callbacks with
  | none => .error (.keyError dataset)
  | some m =>
    .ok ⟨dictSet dataset (dictSet identifier cb m) ns.callbacks⟩

/-- `handle_message`: look up `self._callbacks[dataset]` (`KeyError` when
the dataset is unknown); the `is not None` guard is always true since the
stored value is a dict, so all registered callbacks are gathered.  Returns
the identifiers of the callbacks invoked, in registration order. -/
def handle_message (ns : NotificationService) (m : Msg) :
    Except PyErr (List CbId) :=
  match dictLookup m.datasetName ns.callbacks with
  | none => .error (.keyError m.datasetName)
  | some cbs => .ok (cbs.map Prod.snd)

/-- `handle_message` when invoked callbacks may themselves raise:
`raises c = true` means callback `c` throws.  `asyncio.gather` then
propagates the first failing callback's exception into `run`. -/
def dispatchMessage (ns : NotificationService) (raises : CbId → Bool)
    (m : Msg) : Except PyErr (List CbId) :=
  match dictLookup m.datasetName ns.callbacks with
  | none => .error (.keyError m.datasetName)
  | some cbs =>
    match (cbs.map Prod.snd).find? raises with
    | some c => .error (.cbError c)
    | none => .ok (cbs.map Prod.snd)

/-- The `async for message in c.messages` pump: messages are dispatched
strictly in arrival order until one dispatch raises, which aborts the
iteration.  Returns the fully handled messages and the escaped error, if
any. -/
def processMsgs (ns : NotificationService) (raises : CbId → Bool) :
    List Msg → List Msg × Option PyErr
  | [] => ([], none)
  | m :: rest =>
    match dispatchMessage ns raises m with
    | .ok _ =>
      let t := processMsgs ns raises rest
      (m :: t.1, t.2)
    | .error e => ([], some e)

/-- How one iteration of `run`'s `while True` body ended. -/
inductive IterEnd
  | mqttErr    -- `MqttError` raised (transport failure)
  | otherErr   -- any other `Exception` (including callback errors)
  | streamEnd  -- the message stream ended without an exception
  | cancelled  -- `asyncio.CancelledError`: not an `Exception`, propagates
  deriving DecidableEq, Repr

/-- Observable events of the run loop. -/
inductive LoopEv
  | connect    -- client set up, context entered
  | subscribe  -- topics subscribed
  | teardown   -- `async with` exited: MQTT client closed
  | caughtMqtt   -- `except MqttError` handler entered (logged)
  | caughtOther  -- `except Exception` handler entered (logged)
  | sleepSecs (n : Nat)
  deriving DecidableEq, Repr

/-- Trace of one `while True` iteration given how its body ends. -/
def iterEvents : IterEnd → List LoopEv
  | .mqttErr =>
    [.connect, .subscribe, .teardown, .caughtMqtt, .sleepSecs 30]
  | .otherErr =>
    [.connect, .subscribe, .teardown, .caughtOther, .sleepSecs 30]
  | .streamEnd => [.connect, .subscribe, .teardown]
  | .cancelled => [.connect, .subscribe, .teardown]

/-- `NotificationService.run`: the `while True` loop.  `outs` lists how
each successive iteration's body ends; the loop stops consuming further
iterations only when one is `cancelled`.  Returns the event trace and
whether the loop is still running afterwards. -/
def runLoop : List IterEnd → List LoopEv × Bool
  | [] => ([], true)
  | o :: rest =>
    match o with
    | .cancelled => ([.connect, .subscribe, .teardown], false)
    | o =>
      let t := runLoop rest
      (iterEvents o ++ t.1, t.2)

/-! ## Radar image compositor (`custom_components/nl_weather/camera.py`)

`PrecipitationRadarCam.async_camera_image` (lines 227-259) guards
`__retrieve_radar_image` with a single-flight pattern: an
`asyncio.Condition` plus a boolean `_loading` flag.  Timestamps are
integers (minutes); the cached artifact `_last_image` is identified by the
reference time it renders.  Tasks are modelled by a program counter over
the atomic segments between `await` suspension points: acquiring the
uncontended condition lock does not suspend in asyncio, so the
needs-refresh check, the loading check and the flag flip form one atomic
segment. -/

/-- Shared camera state: `_loading`, `_last_image`, `_last_image_dt`,
`_last_modified`, plus a counter of `__retrieve_radar_image` runs. -/
structure CamState where
  loading : Bool
  lastImage : Option Int
  lastImageDt : Option Int
  lastModified : Option Int
  fetches : Nat
  deriving DecidableEq, Repr

/-- `__needs_refresh` (lines 141-145): `True` when either timestamp is
unset, else `_last_modified > _last_image_dt`. -/
def needsRefresh (s : CamState) : Bool :=
  match s.lastModified, s.lastImageDt with
  | none, _ => true
  | _, none => true
  | some lm, some li => li < lm

/-- Program counter of one task executing `async_camera_image`. -/
inductive TaskPc
  | start                    -- about to run the first atomic segment
  | gettingCap               -- suspended in `__latest_image_datetime()`
  | fetching (ref : Int)     -- holds the loading flag; fetch in flight
  | waiting                  -- blocked in `self._condition.wait()`
  | woken                    -- notified; will return the current artifact
  | done (ret : Except Unit (Option Int))
  deriving Repr

/-- `async with self._condition: if self._loading: wait ... else:
self._loading = True` followed by launching the fetch with the current
`_last_modified` as reference time. -/
def enterGuard (s : CamState) (ref : Int) : CamState × TaskPc :=
  if s.loading then (s, .waiting)
  else ({ s with loading := true }, .fetching ref)

/-- One atomic step of a task, between suspension points.  `fetchOk i`
says whether the `i`-th `__retrieve_radar_image` run succeeds or raises;
`cap` is the timestamp a `GetCapabilities` call would return.  Produces
the new shared state, the task's next pc, and whether `notify_all` ran
(waking all waiters). -/
def stepTask (fetchOk : Nat → Bool) (cap : Int) (s : CamState) :
    TaskPc → CamState × TaskPc × Bool
  | .start =>
    if needsRefresh s = false then (s, .done (.ok s.lastImage), false)
    else
      match s.lastModified with
      | none => (s, .gettingCap, false)
      | some ref =>
        let r := enterGuard s ref
        (r.1, r.2, false)
  | .gettingCap =>
    let s₁ := { s with lastModified := some cap }
    let r := enterGuard s₁ cap
    (r.1, r.2, false)
  | .fetching ref =>
    if fetchOk s.fetches then
      -- fetch returned: `_last_image` stored, `was_updated` commits
      -- `_last_image_dt`, then the `finally` clears `_loading` and
      -- notifies all waiters; the call returns the fresh artifact.
      ({ s with fetches := s.fetches + 1, lastImage := some ref,
                lastImageDt := s.lastModified, loading := false },
       .done (.ok (some ref)), true)
    else
      -- a tile fetch raised: the `finally` still clears `_loading` and
      -- notifies; the cached artifact and its stamp are untouched and
      -- the exception propagates to the caller.
      ({ s with fetches := s.fetches + 1, loading := false },
       .done (.error ()), true)
  | .waiting => (s, .waiting, false)
  | .woken => (s, .done (.ok s.lastImage), false)
  | .done r => (s, .done r, false)

/-- Two concurrent callers of `async_camera_image` over the shared
state. -/
structure CamSys where
  st : CamState
  tA : TaskPc
  tB : TaskPc
  deriving Repr

/-- `notify_all` moves every waiter to the runnable `woken` state. -/
def wakeTask : TaskPc → TaskPc
  | .waiting => .woken
  | p => p

/-- Schedule one cooperative step of task A (`who = true`) or B. -/
def stepSys (fetchOk : Nat → Bool) (cap : Int) (sys : CamSys)
    (who : Bool) : CamSys :=
  if who then
    let r := stepTask fetchOk cap sys.st sys.tA
    { st := r.1, tA := r.2.1,
      tB := if r.2.2 then wakeTask sys.tB else sys.tB }
  else
    let r := stepTask fetchOk cap sys.st sys.tB
    { st := r.1, tB := r.2.1,
      tA := if r.2.2 then wakeTask sys.tA else sys.tA }

/-- Run a whole interleaving (list of scheduling choices). -/
def runSys (fetchOk : Nat → Bool) (cap : Int) :
    List Bool → CamSys → CamSys
  | [], sys => sys
  | who :: rest, sys => runSys fetchOk cap rest (stepSys fetchOk cap sys who)

/-! ### Tick schedule of `__retrieve_radar_image` (lines 147-216)

The fetch list is built by two `while` loops over 10-minute steps:
real-time tiles from `ref_time - 60min` while strictly before `ref_time`,
then forecast tiles from `ref_time` while not after `ref_time + 120min`.
Times are in minutes. -/

/-- Which WMS layer a tile fetch addresses. -/
inductive TileKind
  | realtime
  | forecast
  deriving DecidableEq, Repr

/-- `time = ref_time - 60min; while time < ref_time: fetch realtime(time);
time += 10min` (the loop's tick sequence, here started at `time`). -/
def realtimeTicks (time ref : Int) : List Int :=
  if time < ref then time :: realtimeTicks (time + 10) ref else []
termination_by (ref - time).toNat
decreasing_by
  simp_wf
  omega

/-- `time = ref_time; while time <= ref_time + 120min: fetch
forecast(ref_time, time); time += 10min` (tick sequence from `time` up to
`stop`). -/
def forecastTicks (time stop : Int) : List Int :=
  if time ≤ stop then time :: forecastTicks (time + 10) stop else []
termination_by (stop + 1 - time).toNat
decreasing_by
  simp_wf
  omega

/-- The ordered fetch list built by `__retrieve_radar_image(ref_time)`;
`asyncio.gather` preserves this order, and the GIF frames are composited
in the same order. -/
def fetchSchedule (ref : Int) : List (TileKind × Int) :=
  (realtimeTicks (ref - 60) ref).map (fun t => (.realtime, t))
    ++ (forecastTicks ref (ref + 120)).map (fun t => (.forecast, t))

/-- Configurations reachable by two concurrent `async_camera_image`
callers started on a stale cache (`needsRefresh` true, `_last_modified =
some m`, nothing loading, no fetch yet), when the fetch succeeds.  At most
one task ever holds the loading flag, and a fetch happens exactly once. -/
def camInv (img₀ dt₀ : Option Int) (m : Int) (sys : CamSys) : Prop :=
  (sys.st = ⟨false, img₀, dt₀, some m, 0⟩ ∧
    sys.tA = .start ∧ sys.tB = .start) ∨
  (sys.st = ⟨true, img₀, dt₀, some m, 0⟩ ∧ sys.tA = .fetching m ∧
    (sys.tB = .start ∨ sys.tB = .waiting)) ∨
  (sys.st = ⟨true, img₀, dt₀, some m, 0⟩ ∧ sys.tB = .fetching m ∧
    (sys.tA = .start ∨ sys.tA = .waiting)) ∨
  (sys.st = ⟨false, some m, some m, some m, 1⟩ ∧
    sys.tA = .done (.ok (some m)) ∧
    (sys.tB = .start ∨ sys.tB = .woken ∨
      sys.tB = .done (.ok (some m)))) ∨
  (sys.st = ⟨false, some m, some m, some m, 1⟩ ∧
    sys.tB = .done (.ok (some m)) ∧
    (sys.tA = .start ∨ sys.tA = .woken ∨
      sys.tA = .done (.ok (some m))))

/-! ## Coverage/location resolver (`KNMI/helpers.py`, `edr.py`)

Float arithmetic is embedded over the reals; `math.atan2 y x` is the
argument of the complex number `x + i·y`. -/

/-- `math.radians`. -/
noncomputable def radiansOf (deg : ℝ) : ℝ := deg * (Real.pi / 180)

/-- `math.atan2 y x`. -/
noncomputable def atan2 (y x : ℝ) : ℝ := Complex.arg ⟨x, y⟩

/-- `haversine(lat1, lon1, lat2, lon2)` (`KNMI/helpers.py` lines 12-31,
identical in `edr.py` lines 17-27): Earth radius 6371.0 km. -/
noncomputable def haversine (lat1 lon1 lat2 lon2 : ℝ) : ℝ :=
  let dlat := radiansOf (lat2 - lat1)
  let dlon := radiansOf (lon2 - lon1)
  let a := Real.sin (dlat / 2) ^ 2 +
    Real.cos (radiansOf lat1) * Real.cos (radiansOf lat2) *
      Real.sin (dlon / 2) ^ 2
  let c := 2 * atan2 (Real.sqrt a) (Real.sqrt (1 - a))
  6371.0 * c

/-- A coverage's anchor point: `domain.axes.y.values[0]` (latitude) and
`domain.axes.x.values[0]` (longitude); `id` stands for the rest of the
payload (station identity etc.). -/
structure Coverage where
  id : Nat
  lat : ℝ
  lon : ℝ

/-- A configured location (`{"lat": ..., "lon": ...}`). -/
structure Location where
  lat : ℝ
  lon : ℝ

/-- Distance from a coverage's anchor point to the location, as both
`closest_coverage` variants compute it:
`haversine(c["domain"]["axes"]["y"]["values"][0],
c["domain"]["axes"]["x"]["values"][0], location["lat"],
location["lon"])`. -/
noncomputable def coverageDistance (c : Coverage) (location : Location) : ℝ :=
  haversine c.lat c.lon location.lat location.lon

open Classical in
/-- Python `min(..., key=key)` over `best :: rest`: iterate, replacing the
current minimum only on a strictly smaller key, so ties keep the earlier
element. -/
noncomputable def pyMinFrom {α : Type} (key : α → ℝ) (best : α) :
    List α → α
  | [] => best
  | c :: rest => pyMinFrom key (if key c < key best then c else best) rest

/-- Python `min(xs, key=key)`; `none` models the `ValueError` on an empty
sequence. -/
noncomputable def pyMin {α : Type} (key : α → ℝ) : List α → Option α
  | [] => none
  | x :: xs => some (pyMinFrom key x xs)

/-- `closest_coverage` (`KNMI/helpers.py` lines 34-59): `min` over
`(coverage, distance)` pairs, keyed by the distance; returns the pair. -/
noncomputable def closest_coverage (coverages : List Coverage)
    (location : Location) : Option (Coverage × ℝ) :=
  pyMin (fun p => p.2)
    (coverages.map fun c => (c, coverageDistance c location))

/-- `closest_coverage` (`edr.py` lines 29-38): `min` over the coverages
themselves, keyed by the distance. -/
noncomputable def closest_coverage_edr (coverages : List Coverage)
    (location : Location) : Option Coverage :=
  pyMin (fun c => coverageDistance c location) coverages

/-- A non-skipped event whose first fetch succeeds commits the version and
publishes the data after a single sleep-fetch round. -/
theorem handler_first_ok (mode : DedupeMode) (oracle : Nat → FetchResult)
    (st : CoordState) (v : Int) (d : Nat)
    (hskip : skipEvent mode v st.lastKnown = false)
    (h0 : oracle 0 = .ok d) :
    get_coverage_datetime mode oracle st v =
      ({ lastKnown := v, data := some d },
       [.sleep 15, .fetchAttempt v, .publish d], .ok ()) := by
  simp [get_coverage_datetime, hskip, runAttempts, h0]

/-- A skipped event returns at once, leaving state untouched. -/
theorem handler_skip (mode : DedupeMode) (oracle : Nat → FetchResult)
    (st : CoordState) (v : Int)
    (hskip : skipEvent mode v st.lastKnown = true) :
    get_coverage_datetime mode oracle st v = (st, [], .ok ()) := by
  simp [get_coverage_datetime, hskip]

/-- C1 (counterexample).  The claim says every refresh coordinator fetches
exactly twice on the event sequence `[5, 3, 5, 7]`.  The Auto coordinator
(`NLWeatherAutoEDRCoordinator.get_coverage_datetime`, which skips only
strictly older versions) fetches three times: the duplicate version-5 event
is re-fetched because `5 < 5` is false. -/
theorem C1_counterexample :
    fetchedVersions
        (processEvents .strict (fun v => v.toNat) ⟨0, none⟩ [5, 3, 5, 7]).2
      = [5, 5, 7] ∧
    (fetchedVersions
        (processEvents .strict (fun v => v.toNat) ⟨0, none⟩
          [5, 3, 5, 7]).2).length ≠ 2 := by
  decide

/-- C1 (amended).  On the event sequence `[5, 3, 5, 7]` starting below 5
with every fetch succeeding: the Manual coordinator
(`NLWeatherManualEDRCoordinator`, skip test `<=`) performs exactly two
fetches, for versions 5 and 7, and the version-3 event and the duplicate
version-5 event return without fetching and without changing state; the
Auto coordinator (skip test `<`) re-fetches the duplicate 5 and performs
three fetches. -/
theorem C1_amended (init : Int) (dataOf : Int → Nat) (h : init < 5) :
    fetchedVersions
        (processEvents .inclusive dataOf ⟨init, none⟩ [5, 3, 5, 7]).2
      = [5, 7] ∧
    (processEvents .inclusive dataOf ⟨init, none⟩ [5, 3, 5, 7]).1
      = { lastKnown := 7, data := some (dataOf 7) } ∧
    (∀ oracle, get_coverage_datetime .inclusive oracle
        { lastKnown := 5, data := some (dataOf 5) } 3
      = ({ lastKnown := 5, data := some (dataOf 5) }, [], .ok ())) ∧
    (∀ oracle, get_coverage_datetime .inclusive oracle
        { lastKnown := 5, data := some (dataOf 5) } 5
      = ({ lastKnown := 5, data := some (dataOf 5) }, [], .ok ())) ∧
    fetchedVersions
        (processEvents .strict dataOf ⟨init, none⟩ [5, 3, 5, 7]).2
      = [5, 5, 7] := by
  have hle : ¬((5 : Int) ≤ init) := by omega
  have hlt : ¬((5 : Int) < init) := by omega
  refine ⟨?_, ?_, ?_, ?_, ?_⟩ <;>
    norm_num [processEvents, get_coverage_datetime, skipEvent, runAttempts,
      fetchedVersions, hle, hlt, List.filterMap_cons, List.filterMap_nil]

/-- Witness for `C1_amended` at `init = 0`, `dataOf v = v.toNat`. -/
theorem C1_amended_witness :
    (0 : Int) < 5 ∧
    (fetchedVersions
        (processEvents .inclusive (fun v => v.toNat) ⟨0, none⟩
          [5, 3, 5, 7]).2
      = [5, 7] ∧
    (processEvents .inclusive (fun v => v.toNat) ⟨0, none⟩ [5, 3, 5, 7]).1
      = { lastKnown := 7, data := some ((7 : Int).toNat) } ∧
    (∀ oracle, get_coverage_datetime .inclusive oracle
        { lastKnown := 5, data := some ((5 : Int).toNat) } 3
      = ({ lastKnown := 5, data := some ((5 : Int).toNat) }, [], .ok ())) ∧
    (∀ oracle, get_coverage_datetime .inclusive oracle
        { lastKnown := 5, data := some ((5 : Int).toNat) } 5
      = ({ lastKnown := 5, data := some ((5 : Int).toNat) }, [], .ok ())) ∧
    fetchedVersions
        (processEvents .strict (fun v => v.toNat) ⟨0, none⟩ [5, 3, 5, 7]).2
      = [5, 5, 7]) :=
  ⟨by decide, C1_amended 0 (fun v => v.toNat) (by decide)⟩

/-- C2: for every coordinator variant, on an event strictly newer than
`last_known_version`, if the fetch raises `NotFound` or `ServerError` on
attempts 1 and 2 and succeeds on attempt 3, then exactly three fetch
attempts are made, the 15-second grace sleep precedes every attempt
(including the first), and the coordinator ends in success state:
`last_known_version` is set to the event version and the new data is
published. -/
theorem C2_retry_success (mode : DedupeMode) (oracle : Nat → FetchResult)
    (st : CoordState) (v : Int) (d : Nat)
    (hnew : st.lastKnown < v)
    (h0 : oracle 0 = .err .notFound ∨ oracle 0 = .err .serverError)
    (h1 : oracle 1 = .err .notFound ∨ oracle 1 = .err .serverError)
    (h2 : oracle 2 = .ok d) :
    get_coverage_datetime mode oracle st v =
      ({ lastKnown := v, data := some d },
       [.sleep 15, .fetchAttempt v, .sleep 15, .fetchAttempt v,
        .sleep 15, .fetchAttempt v, .publish d], .ok ()) ∧
    (fetchedVersions (get_coverage_datetime mode oracle st v).2.1).length
      = 3 := by
  have hskip : skipEvent mode v st.lastKnown = false := by
    cases mode <;> simp [skipEvent] <;> omega
  rcases h0 with h0 | h0 <;> rcases h1 with h1 | h1 <;>
    simp [get_coverage_datetime, hskip, runAttempts, h0, h1, h2,
      fetchedVersions, List.filterMap_cons, List.filterMap_nil]

/-- Witness for `C2_retry_success`: Manual coordinator, `NotFound` twice
then success with payload 42 on an event with version 5 from state 0. -/
theorem C2_retry_success_witness :
    ((⟨0, none⟩ : CoordState).lastKnown < 5 ∧
      ((fun n => if n < 2 then FetchResult.err .notFound
        else .ok 42) 0 = .err .notFound ∨
       (fun n => if n < 2 then FetchResult.err .notFound
        else .ok 42) 0 = .err .serverError)) ∧
    get_coverage_datetime .inclusive
        (fun n => if n < 2 then FetchResult.err .notFound else .ok 42)
        ⟨0, none⟩ 5 =
      ({ lastKnown := 5, data := some 42 },
       [.sleep 15, .fetchAttempt 5, .sleep 15, .fetchAttempt 5,
        .sleep 15, .fetchAttempt 5, .publish 42], .ok ()) :=
  ⟨⟨by decide, Or.inl (by decide)⟩,
   (C2_retry_success .inclusive _ ⟨0, none⟩ 5 42 (by decide)
      (Or.inl (by decide)) (Or.inl (by decide)) (by decide)).1⟩

/-- C3: for every coordinator variant, on an event strictly newer than
`last_known_version`, if the first fetch attempt raises any error other
than `NotFound`/`ServerError` (e.g. `InvalidRequest`), no second attempt is
made, the prior cached state (`last_known_version` and last published data)
is left unchanged, and the error propagates out of the callback. -/
theorem C3_abort (mode : DedupeMode) (oracle : Nat → FetchResult)
    (st : CoordState) (v : Int) (e : FetchErr)
    (hnew : st.lastKnown < v)
    (hnf : e ≠ .notFound) (hse : e ≠ .serverError)
    (h0 : oracle 0 = .err e) :
    get_coverage_datetime mode oracle st v =
      (st, [.sleep 15, .fetchAttempt v], .error e) := by
  have hskip : skipEvent mode v st.lastKnown = false := by
    cases mode <;> simp [skipEvent] <;> omega
  cases e with
  | notFound => exact absurd rfl hnf
  | serverError => exact absurd rfl hse
  | tokenInvalid => simp [get_coverage_datetime, hskip, runAttempts, h0]
  | invalidRequest => simp [get_coverage_datetime, hskip, runAttempts, h0]

/-- Witness for `C3_abort`: `InvalidRequest` on the first attempt of a
version-5 event from state 0. -/
theorem C3_abort_witness :
    ((⟨0, some 7⟩ : CoordState).lastKnown < 5 ∧
      FetchErr.invalidRequest ≠ .notFound ∧
      FetchErr.invalidRequest ≠ .serverError) ∧
    get_coverage_datetime .inclusive
        (fun _ => .err .invalidRequest) ⟨0, some 7⟩ 5 =
      (⟨0, some 7⟩, [.sleep 15, .fetchAttempt 5],
       .error .invalidRequest) :=
  ⟨⟨by decide, by decide, by decide⟩,
   C3_abort .inclusive _ ⟨0, some 7⟩ 5 .invalidRequest (by decide)
     (by decide) (by decide) rfl⟩

/-- The real-time `while` loop of `__retrieve_radar_image` visits exactly
the six ticks `ref-60 .. ref-10`. -/
theorem realtimeTicks_window (ref : Int) :
    realtimeTicks (ref - 60) ref =
      [ref - 60, ref - 50, ref - 40, ref - 30, ref - 20, ref - 10] := by
  rw [realtimeTicks, if_pos (by omega : ref - 60 < ref)]
  rw [realtimeTicks, if_pos (by omega : ref - 60 + 10 < ref)]
  rw [realtimeTicks, if_pos (by omega : ref - 60 + 10 + 10 < ref)]
  rw [realtimeTicks, if_pos (by omega : ref - 60 + 10 + 10 + 10 < ref)]
  rw [realtimeTicks, if_pos (by omega : ref - 60 + 10 + 10 + 10 + 10 < ref)]
  rw [realtimeTicks,
    if_pos (by omega : ref - 60 + 10 + 10 + 10 + 10 + 10 < ref)]
  rw [realtimeTicks,
    if_neg (by omega : ¬ ref - 60 + 10 + 10 + 10 + 10 + 10 + 10 < ref)]
  simp only [List.cons.injEq, and_true, true_and]
  omega

/-- The forecast `while` loop visits exactly the thirteen ticks
`ref .. ref+120`. -/
theorem forecastTicks_window (ref : Int) :
    forecastTicks ref (ref + 120) =
      [ref, ref + 10, ref + 20, ref + 30, ref + 40, ref + 50, ref + 60,
       ref + 70, ref + 80, ref + 90, ref + 100, ref + 110, ref + 120] := by
  rw [forecastTicks, if_pos (by omega : ref ≤ ref + 120)]
  rw [forecastTicks, if_pos (by omega : ref + 10 ≤ ref + 120)]
  rw [forecastTicks, if_pos (by omega : ref + 10 + 10 ≤ ref + 120)]
  rw [forecastTicks, if_pos (by omega : ref + 10 + 10 + 10 ≤ ref + 120)]
  rw [forecastTicks,
    if_pos (by omega : ref + 10 + 10 + 10 + 10 ≤ ref + 120)]
  rw [forecastTicks,
    if_pos (by omega : ref + 10 + 10 + 10 + 10 + 10 ≤ ref + 120)]
  rw [forecastTicks,
    if_pos (by omega : ref + 10 + 10 + 10 + 10 + 10 + 10 ≤ ref + 120)]
  rw [forecastTicks,
    if_pos (by omega : ref + 10 + 10 + 10 + 10 + 10 + 10 + 10 ≤ ref + 120)]
  rw [forecastTicks,
    if_pos (by omega :
      ref + 10 + 10 + 10 + 10 + 10 + 10 + 10 + 10 ≤ ref + 120)]
  rw [forecastTicks,
    if_pos (by omega :
      ref + 10 + 10 + 10 + 10 + 10 + 10 + 10 + 10 + 10 ≤ ref + 120)]
  rw [forecastTicks,
    if_pos (by omega :
      ref + 10 + 10 + 10 + 10 + 10 + 10 + 10 + 10 + 10 + 10 ≤ ref + 120)]
  rw [forecastTicks,
    if_pos (by omega :
      ref + 10 + 10 + 10 + 10 + 10 + 10 + 10 + 10 + 10 + 10 + 10
        ≤ ref + 120)]
  rw [forecastTicks,
    if_pos (by omega :
      ref + 10 + 10 + 10 + 10 + 10 + 10 + 10 + 10 + 10 + 10 + 10 + 10
        ≤ ref + 120)]
  rw [forecastTicks,
    if_neg (by omega :
      ¬ ref + 10 + 10 + 10 + 10 + 10 + 10 + 10 + 10 + 10 + 10 + 10 + 10
          + 10 ≤ ref + 120)]
  simp only [List.cons.injEq, and_true, true_and]
  omega

/-- The full fetch list of `__retrieve_radar_image(ref_time)`: six
real-time ticks then thirteen forecast ticks, in order. -/
theorem fetchSchedule_eq (ref : Int) :
    fetchSchedule ref =
      [(TileKind.realtime, ref - 60), (.realtime, ref - 50),
       (.realtime, ref - 40), (.realtime, ref - 30), (.realtime, ref - 20),
       (.realtime, ref - 10),
       (.forecast, ref), (.forecast, ref + 10), (.forecast, ref + 20),
       (.forecast, ref + 30), (.forecast, ref + 40), (.forecast, ref + 50),
       (.forecast, ref + 60), (.forecast, ref + 70), (.forecast, ref + 80),
       (.forecast, ref + 90), (.forecast, ref + 100),
       (.forecast, ref + 110), (.forecast, ref + 120)] := by
  rw [fetchSchedule, realtimeTicks_window, forecastTicks_window]
  simp [List.map]

/-- C6 (counterexample).  The claim says a real-time tile is fetched for
every 10-minute tick of the closed interval `[T-60min, T]`.  At `T = 0`,
the tick `0` lies in that closed interval, yet no real-time fetch is
issued for it — the reference time itself is fetched as a forecast tile
(the real-time loop runs `while time < ref_time`, a half-open window). -/
theorem C6_counterexample :
    ((0 : Int) - 60 ≤ 0 ∧ (0 : Int) ≤ 0 ∧ ((0 : Int) - 0) % 10 = 0) ∧
    (TileKind.realtime, (0 : Int)) ∉ fetchSchedule 0 ∧
    (TileKind.forecast, (0 : Int)) ∈ fetchSchedule 0 := by
  rw [fetchSchedule_eq]
  decide

/-- C6 (amended).  One regeneration at reference time `T` issues a
real-time tile fetch for exactly the 10-minute ticks of the half-open
interval `[T-60min, T)`, and a forecast tile fetch for exactly the
10-minute ticks of the closed interval `[T, T+120min]` (so tick `T` is
covered by a forecast fetch, not a real-time one); the frames of the
encoded animation appear in fetch-list order, which is ordered by
timestamp. -/
theorem C6_amended (ref : Int) :
    (∀ t : Int, (TileKind.realtime, t) ∈ fetchSchedule ref ↔
      ref - 60 ≤ t ∧ t < ref ∧ (t - ref) % 10 = 0) ∧
    (∀ t : Int, (TileKind.forecast, t) ∈ fetchSchedule ref ↔
      ref ≤ t ∧ t ≤ ref + 120 ∧ (t - ref) % 10 = 0) ∧
    List.Chain' (· ≤ ·) ((fetchSchedule ref).map Prod.snd) := by
  refine ⟨?_, ?_, ?_⟩
  · intro t
    rw [fetchSchedule_eq]
    simp only [List.mem_cons, List.not_mem_nil, or_false, Prod.mk.injEq]
    simp only [reduceCtorEq, false_and, or_false, true_and]
    omega
  · intro t
    rw [fetchSchedule_eq]
    simp only [List.mem_cons, List.not_mem_nil, or_false, Prod.mk.injEq]
    simp only [reduceCtorEq, false_and, false_or, true_and]
    omega
  · rw [fetchSchedule_eq]
    simp only [List.map_cons, List.map_nil, List.chain'_cons,
      List.chain'_singleton, and_true]
    omega

/-- Invariant preservation: one cooperative step from any reachable
configuration of the two-caller single-flight scenario stays reachable. -/
theorem camInv_step (img₀ dt₀ : Option Int) (m cap : Int)
    (fetchOk : Nat → Bool)
    (hNR : needsRefresh ⟨false, img₀, dt₀, some m, 0⟩ = true)
    (hok : fetchOk 0 = true) (sys : CamSys) (who : Bool)
    (h : camInv img₀ dt₀ m sys) :
    camInv img₀ dt₀ m (stepSys fetchOk cap sys who) := by
  have hd : dt₀ = none ∨ ∃ d, dt₀ = some d ∧ d < m := by
    cases dt₀ with
    | none => exact Or.inl rfl
    | some d =>
      right
      refine ⟨d, rfl, ?_⟩
      simpa [needsRefresh] using hNR
  rcases hd with rfl | ⟨d, rfl, hdm⟩
  · obtain ⟨st, tA, tB⟩ := sys
    rcases h with ⟨hst, hA, hB⟩ | ⟨hst, hA, hB | hB⟩ | ⟨hst, hB, hA | hA⟩ |
        ⟨hst, hA, hB | hB | hB⟩ | ⟨hst, hB, hA | hA | hA⟩ <;>
      dsimp only at hst hA hB <;> subst hst <;> subst hA <;> subst hB <;>
      cases who <;>
      simp [stepSys, stepTask, enterGuard, wakeTask, needsRefresh, hok,
        camInv]
  · obtain ⟨st, tA, tB⟩ := sys
    rcases h with ⟨hst, hA, hB⟩ | ⟨hst, hA, hB | hB⟩ | ⟨hst, hB, hA | hA⟩ |
        ⟨hst, hA, hB | hB | hB⟩ | ⟨hst, hB, hA | hA | hA⟩ <;>
      dsimp only at hst hA hB <;> subst hst <;> subst hA <;> subst hB <;>
      cases who <;>
      simp [stepSys, stepTask, enterGuard, wakeTask, needsRefresh, hok,
        hdm.not_le, camInv]

/-- The invariant holds along every finite interleaving. -/
theorem camInv_run (img₀ dt₀ : Option Int) (m cap : Int)
    (fetchOk : Nat → Bool)
    (hNR : needsRefresh ⟨false, img₀, dt₀, some m, 0⟩ = true)
    (hok : fetchOk 0 = true) (sched : List Bool) (sys : CamSys)
    (h : camInv img₀ dt₀ m sys) :
    camInv img₀ dt₀ m (runSys fetchOk cap sched sys) := by
  induction sched generalizing sys with
  | nil => simpa [runSys] using h
  | cons who rest ih =>
    simp only [runSys]
    exact ih _ (camInv_step img₀ dt₀ m cap fetchOk hNR hok sys who h)

/-- C5 (counterexample).  The claim says that whenever no refresh is in
progress (`_loading` false) and a refresh is needed, two concurrent
callers cause exactly one fetch-and-regenerate cycle.  In the cold-start
case — `_last_modified is None`, where `__needs_refresh()` is also true —
both callers pass the `None` check and suspend in
`__latest_image_datetime()` (camera.py line 235) *before* reaching the
condition-variable guard: the first caller can then run the whole
guard-fetch-commit-release cycle while the second is still suspended, and
the second, on resuming, finds `_loading` false, takes the guard and
fetches again.  Concretely: from `⟨false, none, none, none, 0⟩` (loading
false, refresh needed) the schedule A,B,A,A,B,B completes both callers
with two `__retrieve_radar_image` runs, not one. -/
theorem C5_counterexample :
    needsRefresh ⟨false, none, none, none, 0⟩ = true ∧
    (⟨false, none, none, none, 0⟩ : CamState).loading = false ∧
    (runSys (fun _ => true) 5 [true, false, true, true, false, false]
      ⟨⟨false, none, none, none, 0⟩, .start, .start⟩).tA =
        .done (.ok (some 5)) ∧
    (runSys (fun _ => true) 5 [true, false, true, true, false, false]
      ⟨⟨false, none, none, none, 0⟩, .start, .start⟩).tB =
        .done (.ok (some 5)) ∧
    (runSys (fun _ => true) 5 [true, false, true, true, false, false]
      ⟨⟨false, none, none, none, 0⟩, .start, .start⟩).st.fetches = 2 :=
  ⟨rfl, rfl, rfl, rfl, rfl⟩

/-- C5 (amended): two concurrent callers of `async_camera_image`,
starting with no refresh in progress (`_loading` false), a refresh needed
(`needsRefresh` true) and the latest source version already known
(`_last_modified = some m`, i.e. not the cold-start case refuted by the
counterexample), cause exactly one `__retrieve_radar_image` cycle under
every interleaving that completes both callers, and both callers return
the refreshed artifact: whichever task loses the race either waits on the
condition variable until the fetching task completes and then returns the
current artifact without fetching, or arrives after commit and is served
the cached artifact. -/
theorem C5_single_flight (img₀ dt₀ : Option Int) (m cap : Int)
    (fetchOk : Nat → Bool) (sched : List Bool)
    (ra rb : Except Unit (Option Int))
    (hNR : needsRefresh ⟨false, img₀, dt₀, some m, 0⟩ = true)
    (hok : fetchOk 0 = true)
    (hA : (runSys fetchOk cap sched
      ⟨⟨false, img₀, dt₀, some m, 0⟩, .start, .start⟩).tA = .done ra)
    (hB : (runSys fetchOk cap sched
      ⟨⟨false, img₀, dt₀, some m, 0⟩, .start, .start⟩).tB = .done rb) :
    (runSys fetchOk cap sched
      ⟨⟨false, img₀, dt₀, some m, 0⟩, .start, .start⟩).st.fetches = 1 ∧
    ra = .ok (some m) ∧ rb = .ok (some m) := by
  have hfin := camInv_run img₀ dt₀ m cap fetchOk hNR hok sched
    ⟨⟨false, img₀, dt₀, some m, 0⟩, .start, .start⟩
    (Or.inl ⟨rfl, rfl, rfl⟩)
  rcases hfin with ⟨hst, h1, h2⟩ | ⟨hst, h1, h2 | h2⟩ |
      ⟨hst, h1, h2 | h2⟩ | ⟨hst, h1, h2 | h2 | h2⟩ |
      ⟨hst, h1, h2 | h2 | h2⟩
  · simp [hA] at h1
  · simp [hA] at h1
  · simp [hA] at h1
  · simp [hB] at h1
  · simp [hB] at h1
  · simp [hB] at h2
  · simp [hB] at h2
  · have hra : ra = .ok (some m) := by
      have := hA.symm.trans h1
      simpa using this
    have hrb : rb = .ok (some m) := by
      have := hB.symm.trans h2
      simpa using this
    exact ⟨by simp [hst], hra, hrb⟩
  · simp [hA] at h2
  · simp [hA] at h2
  · have hra : ra = .ok (some m) := by
      have := hA.symm.trans h2
      simpa using this
    have hrb : rb = .ok (some m) := by
      have := hB.symm.trans h1
      simpa using this
    exact ⟨by simp [hst], hra, hrb⟩

/-- Witness for `C5_single_flight`: cold cache, version 5, schedule where
caller A runs, fetches, and then caller B is served the cache. -/
theorem C5_single_flight_witness :
    (needsRefresh ⟨false, none, none, some 5, 0⟩ = true ∧
     (fun _ : Nat => true) 0 = true ∧
     (runSys (fun _ => true) 0 [true, true, false]
       ⟨⟨false, none, none, some 5, 0⟩, .start, .start⟩).tA =
         .done (.ok (some 5)) ∧
     (runSys (fun _ => true) 0 [true, true, false]
       ⟨⟨false, none, none, some 5, 0⟩, .start, .start⟩).tB =
         .done (.ok (some 5))) ∧
    ((runSys (fun _ => true) 0 [true, true, false]
       ⟨⟨false, none, none, some 5, 0⟩, .start, .start⟩).st.fetches = 1 ∧
     (Except.ok (some (5 : Int)) : Except Unit (Option Int)) =
       .ok (some 5) ∧
     (Except.ok (some (5 : Int)) : Except Unit (Option Int)) =
       .ok (some 5)) :=
  ⟨⟨rfl, rfl, rfl, rfl⟩,
   C5_single_flight none none 5 0 _ [true, true, false] _ _ rfl rfl rfl
     rfl⟩

/-- C10: when the in-flight `__retrieve_radar_image` raises, the step still
clears `_loading` and wakes the waiter via the `finally` block (no
deadlock), the caller propagates the error, the cached artifact bytes and
the version stamp they represent are unchanged, the refresh is still
needed afterwards, and a subsequent fresh caller re-enters the guard and
attempts the fetch again. -/
theorem C10_fetch_failure (fetchOk fetchOk₂ : Nat → Bool) (cap : Int)
    (s : CamState) (ref m : Int)
    (hfail : fetchOk s.fetches = false)
    (hNR : needsRefresh s = true)
    (hmod : s.lastModified = some m) :
    stepSys fetchOk cap ⟨s, .fetching ref, .waiting⟩ true =
      ⟨{ s with fetches := s.fetches + 1, loading := false },
       .done (.error ()), .woken⟩ ∧
    ({ s with fetches := s.fetches + 1, loading := false } :
        CamState).lastImage = s.lastImage ∧
    ({ s with fetches := s.fetches + 1, loading := false } :
        CamState).lastImageDt = s.lastImageDt ∧
    needsRefresh { s with fetches := s.fetches + 1, loading := false } =
      true ∧
    stepTask fetchOk₂ cap
        { s with fetches := s.fetches + 1, loading := false } .start =
      ({ s with fetches := s.fetches + 1, loading := true },
       .fetching m, false) := by
  have h4 : needsRefresh
      { s with fetches := s.fetches + 1, loading := false } = true := by
    simpa [needsRefresh] using hNR
  have h5 := h4
  rw [hmod] at h5
  refine ⟨by simp [stepSys, stepTask, hfail, wakeTask], rfl, rfl, h4, ?_⟩
  simp [stepTask, h4, h5, hmod, enterGuard]

/-- Witness for `C10_fetch_failure`: a failing fetch from a state with a
cached artifact for version 1 and source version 2. -/
theorem C10_fetch_failure_witness :
    ((fun _ : Nat => false) (⟨true, some 1, some 1, some 2, 0⟩ :
        CamState).fetches = false ∧
     needsRefresh ⟨true, some 1, some 1, some 2, 0⟩ = true ∧
     (⟨true, some 1, some 1, some 2, 0⟩ : CamState).lastModified =
       some 2) ∧
    (stepSys (fun _ => false) 0
        ⟨⟨true, some 1, some 1, some 2, 0⟩, .fetching 2, .waiting⟩ true =
      ⟨⟨false, some 1, some 1, some 2, 1⟩, .done (.error ()), .woken⟩ ∧
     (⟨false, some 1, some 1, some 2, 1⟩ : CamState).lastImage = some 1 ∧
     (⟨false, some 1, some 1, some 2, 1⟩ : CamState).lastImageDt =
       some 1 ∧
     needsRefresh ⟨false, some 1, some 1, some 2, 1⟩ = true ∧
     stepTask (fun _ => true) 0 ⟨false, some 1, some 1, some 2, 1⟩
         .start =
       (⟨true, some 1, some 1, some 2, 1⟩, .fetching 2, false)) :=
  ⟨⟨rfl, rfl, rfl⟩,
   C10_fetch_failure (fun _ => false) (fun _ => true) 0
     ⟨true, some 1, some 1, some 2, 0⟩ 2 2 rfl rfl rfl⟩

/-- Python `min` stability: the result of the fold splits `best :: l` into
a strictly-greater prefix, the result itself, and a not-smaller suffix —
i.e. the result is the earliest element attaining the minimal key. -/
theorem pyMinFrom_split {α : Type} (key : α → ℝ) :
    ∀ (l : List α) (best : α),
      ∃ l₁ l₂, best :: l = l₁ ++ pyMinFrom key best l :: l₂ ∧
        (∀ c ∈ l₁, key (pyMinFrom key best l) < key c) ∧
        (∀ c ∈ l₂, key (pyMinFrom key best l) ≤ key c) := by
  intro l
  induction l with
  | nil =>
    intro best
    exact ⟨[], [], by simp [pyMinFrom], by simp, by simp⟩
  | cons c rest ih =>
    intro best
    by_cases hcb : key c < key best
    · obtain ⟨l₁, l₂, heq, hlt, hle⟩ := ih c
      have hstep : pyMinFrom key best (c :: rest) =
          pyMinFrom key c rest := by
        simp [pyMinFrom, hcb]
      rw [hstep]
      have hrc : key (pyMinFrom key c rest) ≤ key c := by
        rcases l₁ with _ | ⟨x, l₁t⟩
        · simp only [List.nil_append, List.cons.injEq] at heq
          exact le_of_eq (congrArg key heq.1).symm
        · simp only [List.cons_append, List.cons.injEq] at heq
          have hx := hlt x (List.mem_cons_self x l₁t)
          rw [← heq.1] at hx
          exact le_of_lt hx
      refine ⟨best :: l₁, l₂, ?_, ?_, hle⟩
      · simpa using heq
      · intro y hy
        rcases List.mem_cons.mp hy with rfl | hy
        · exact lt_of_le_of_lt hrc hcb
        · exact hlt y hy
    · obtain ⟨l₁, l₂, heq, hlt, hle⟩ := ih best
      have hstep : pyMinFrom key best (c :: rest) =
          pyMinFrom key best rest := by
        simp [pyMinFrom, hcb]
      rw [hstep]
      rcases l₁ with _ | ⟨x, l₁t⟩
      · simp only [List.nil_append, List.cons.injEq] at heq
        refine ⟨[], c :: l₂, ?_, by simp, ?_⟩
        · rw [List.nil_append, ← heq.1, ← heq.2]
        · intro y hy
          rcases List.mem_cons.mp hy with rfl | hy
          · rw [← heq.1]
            exact le_of_not_lt hcb
          · exact hle y hy
      · simp only [List.cons_append, List.cons.injEq] at heq
        have hx := hlt x (List.mem_cons_self x l₁t)
        rw [← heq.1] at hx
        refine ⟨best :: c :: l₁t, l₂, ?_, ?_, hle⟩
        · simp only [List.cons_append, List.cons.injEq, true_and]
          exact heq.2
        · intro y hy
          rcases List.mem_cons.mp hy with rfl | hy
          · exact hx
          · rcases List.mem_cons.mp hy with rfl | hy
            · exact lt_of_lt_of_le hx (le_of_not_lt hcb)
            · exact hlt y (List.mem_cons_of_mem x hy)

/-- `min` over a mapped list equals the map of `min` with the composed
key: relates the pair-building `closest_coverage` of `KNMI/helpers.py` to
the direct one of `edr.py`. -/
theorem pyMinFrom_map {α β : Type} (f : α → β) (key : β → ℝ) :
    ∀ (l : List α) (b : α),
      pyMinFrom key (f b) (l.map f) =
        f (pyMinFrom (fun a => key (f a)) b l) := by
  intro l
  induction l with
  | nil =>
    intro b
    simp [pyMinFrom]
  | cons c rest ih =>
    intro b
    simp only [List.map_cons, pyMinFrom]
    by_cases h : key (f c) < key (f b)
    · simp only [if_pos h, ih]
    · simp only [if_neg h, ih]

/-- The haversine formula is symmetric in its two points. -/
theorem haversine_comm (lat1 lon1 lat2 lon2 : ℝ) :
    haversine lat1 lon1 lat2 lon2 = haversine lat2 lon2 lat1 lon1 := by
  have hkey : Real.sin (radiansOf (lat1 - lat2) / 2) ^ 2 +
      Real.cos (radiansOf lat2) * Real.cos (radiansOf lat1) *
        Real.sin (radiansOf (lon1 - lon2) / 2) ^ 2
    = Real.sin (radiansOf (lat2 - lat1) / 2) ^ 2 +
      Real.cos (radiansOf lat1) * Real.cos (radiansOf lat2) *
        Real.sin (radiansOf (lon2 - lon1) / 2) ^ 2 := by
    have h1 : radiansOf (lat1 - lat2) / 2 =
        -(radiansOf (lat2 - lat1) / 2) := by
      unfold radiansOf
      ring
    have h2 : radiansOf (lon1 - lon2) / 2 =
        -(radiansOf (lon2 - lon1) / 2) := by
      unfold radiansOf
      ring
    rw [h1, h2, Real.sin_neg, Real.sin_neg]
    ring
  simp only [haversine]
  rw [hkey]

/-- C8: for every non-empty coverage list and location, both
`closest_coverage` variants return the element whose anchor point
minimizes the haversine distance (Earth radius 6371.0 km) to the
location, breaking ties by input order: the list splits into a prefix of
strictly farther coverages, the result, and a suffix of not-nearer
coverages; and haversine is symmetric in its two points. -/
theorem C8_closest_minimizes (coverages : List Coverage)
    (location : Location) (hne : coverages ≠ []) :
    (∃ r l₁ l₂,
      closest_coverage_edr coverages location = some r ∧
      closest_coverage coverages location =
        some (r, coverageDistance r location) ∧
      coverages = l₁ ++ r :: l₂ ∧
      (∀ c ∈ l₁,
        coverageDistance r location < coverageDistance c location) ∧
      (∀ c ∈ coverages,
        coverageDistance r location ≤ coverageDistance c location)) ∧
    ∀ lat1 lon1 lat2 lon2 : ℝ,
      haversine lat1 lon1 lat2 lon2 = haversine lat2 lon2 lat1 lon1 := by
  refine ⟨?_, haversine_comm⟩
  obtain ⟨x, xs, rfl⟩ : ∃ x xs, coverages = x :: xs := by
    cases coverages with
    | nil => exact absurd rfl hne
    | cons x xs => exact ⟨x, xs, rfl⟩
  obtain ⟨l₁, l₂, heq, hlt, hle⟩ :=
    pyMinFrom_split (fun c => coverageDistance c location) xs x
  refine ⟨pyMinFrom (fun c => coverageDistance c location) x xs,
    l₁, l₂, rfl, ?_, heq, hlt, ?_⟩
  · simp only [closest_coverage, List.map_cons, pyMin]
    rw [pyMinFrom_map (fun c => (c, coverageDistance c location))
      (fun p => p.2) xs x]
  · intro c hc
    rw [heq] at hc
    rcases List.mem_append.mp hc with h | h
    · exact le_of_lt (hlt c h)
    · rcases List.mem_cons.mp h with rfl | h
      · exact le_refl _
      · exact hle c h

/-- Witness for `C8_closest_minimizes`: a one-element coverage list. -/
theorem C8_closest_minimizes_witness :
    (([⟨0, 0, 0⟩] : List Coverage) ≠ []) ∧
    ((∃ r l₁ l₂,
      closest_coverage_edr [⟨0, 0, 0⟩] ⟨0, 0⟩ = some r ∧
      closest_coverage [⟨0, 0, 0⟩] ⟨0, 0⟩ =
        some (r, coverageDistance r ⟨0, 0⟩) ∧
      ([⟨0, 0, 0⟩] : List Coverage) = l₁ ++ r :: l₂ ∧
      (∀ c ∈ l₁,
        coverageDistance r ⟨0, 0⟩ < coverageDistance c ⟨0, 0⟩) ∧
      (∀ c ∈ ([⟨0, 0, 0⟩] : List Coverage),
        coverageDistance r ⟨0, 0⟩ ≤ coverageDistance c ⟨0, 0⟩)) ∧
    ∀ lat1 lon1 lat2 lon2 : ℝ,
      haversine lat1 lon1 lat2 lon2 = haversine lat2 lon2 lat1 lon1) :=
  ⟨by simp, C8_closest_minimizes [⟨0, 0, 0⟩] ⟨0, 0⟩ (by simp)⟩

/-- C4 (counterexample).  The claim says a message whose dataset name has
no registered callbacks is dropped silently with no other effect.  After
registering a callback under `radar_forecast`, a message with the unknown
dataset name `foo` (under which no callback is registered) raises a
`KeyError` out of `handle_message` instead of being silently dropped. -/
theorem C4_counterexample :
    set_callback NotificationService.init "radar_forecast" "cam" 1 =
      .ok ⟨[("10-minute-in-situ-meteorological-observations", []),
            ("radar_forecast", [("cam", 1)]),
            ("harmonie_arome_cy43_p1", [])]⟩ ∧
    handle_message
        ⟨[("10-minute-in-situ-meteorological-observations", []),
          ("radar_forecast", [("cam", 1)]),
          ("harmonie_arome_cy43_p1", [])]⟩ ⟨"foo", 0⟩ =
      .error (.keyError "foo") ∧
    ∀ l, handle_message
        ⟨[("10-minute-in-situ-meteorological-observations", []),
          ("radar_forecast", [("cam", 1)]),
          ("harmonie_arome_cy43_p1", [])]⟩ ⟨"foo", 0⟩ ≠ .ok l := by
  refine ⟨rfl, rfl, ?_⟩
  intro l h
  rw [show handle_message
      ⟨[("10-minute-in-situ-meteorological-observations", []),
        ("radar_forecast", [("cam", 1)]),
        ("harmonie_arome_cy43_p1", [])]⟩ ⟨"foo", 0⟩ =
    .error (.keyError "foo") from rfl] at h
  exact Except.noConfusion h

/-- C4 (amended).  For a message whose dataset name is a key of the
callback table, exactly the callbacks registered under that key are
invoked — all of them, in registration order, and never a callback
registered under a different dataset name — so a key with no registered
callbacks yields a silent drop (`ok []`); for a message whose dataset name
is not a key of the table, `handle_message` raises a `KeyError` (caught by
`run`'s generic handler) rather than dropping the message silently. -/
theorem C4_amended (ns : NotificationService) (m mUnknown : Msg)
    (cbs : List (String × CbId))
    (h : dictLookup m.datasetName ns.callbacks = some cbs)
    (h₂ : dictLookup mUnknown.datasetName ns.callbacks = none) :
    handle_message ns m = .ok (cbs.map Prod.snd) ∧
    handle_message ns mUnknown = .error (.keyError mUnknown.datasetName) := by
  constructor
  · simp [handle_message, h]
  · simp [handle_message, h₂]

/-- Witness for `C4_amended`: two callbacks registered under the
observations dataset, a message for that dataset, and a message with the
unknown dataset name `nope`. -/
theorem C4_amended_witness :
    dictLookup "10-minute-in-situ-meteorological-observations"
        (⟨[("10-minute-in-situ-meteorological-observations",
            [("a", 1), ("b", 2)]),
           ("radar_forecast", []),
           ("harmonie_arome_cy43_p1", [])]⟩ :
          NotificationService).callbacks = some [("a", 1), ("b", 2)] ∧
    dictLookup "nope"
        (⟨[("10-minute-in-situ-meteorological-observations",
            [("a", 1), ("b", 2)]),
           ("radar_forecast", []),
           ("harmonie_arome_cy43_p1", [])]⟩ :
          NotificationService).callbacks = none ∧
    (handle_message
        ⟨[("10-minute-in-situ-meteorological-observations",
            [("a", 1), ("b", 2)]),
           ("radar_forecast", []),
           ("harmonie_arome_cy43_p1", [])]⟩
        ⟨"10-minute-in-situ-meteorological-observations", 0⟩ =
      .ok ([("a", 1), ("b", 2)].map Prod.snd) ∧
    handle_message
        ⟨[("10-minute-in-situ-meteorological-observations",
            [("a", 1), ("b", 2)]),
           ("radar_forecast", []),
           ("harmonie_arome_cy43_p1", [])]⟩ ⟨"nope", 3⟩ =
      .error (.keyError "nope")) :=
  ⟨by decide, by decide,
   C4_amended _ ⟨"10-minute-in-situ-meteorological-observations", 0⟩
     ⟨"nope", 3⟩ [("a", 1), ("b", 2)] (by decide) (by decide)⟩

/-- C7: the listener's run loop never terminates on an error.  For every
sequence of iteration outcomes that contains no cancellation — transport
`MqttError`s and arbitrary other exceptions, including callback errors —
the loop is still running afterwards and its trace is exactly one
connect-subscribe cycle per iteration, with the error caught and logged
and a fixed 30-second sleep observed before re-entering the cycle;
appending a cancellation is what ends the loop. -/
theorem C7_loop_resilient (outs : List IterEnd)
    (h : IterEnd.cancelled ∉ outs) :
    (runLoop outs).2 = true ∧
    (runLoop outs).1 = outs.flatMap iterEvents ∧
    (runLoop (outs ++ [.cancelled])).2 = false := by
  induction outs with
  | nil => simp [runLoop]
  | cons o rest ih =>
    have ho : o ≠ .cancelled := fun he => h (he ▸ List.mem_cons_self o rest)
    have hrest : IterEnd.cancelled ∉ rest := fun hm => h (List.mem_cons_of_mem o hm)
    obtain ⟨h1, h2, h3⟩ := ih hrest
    cases o with
    | cancelled => exact absurd rfl ho
    | mqttErr => exact ⟨h1, by simp [runLoop, h2, iterEvents], by simpa [runLoop] using h3⟩
    | otherErr => exact ⟨h1, by simp [runLoop, h2, iterEvents], by simpa [runLoop] using h3⟩
    | streamEnd => exact ⟨h1, by simp [runLoop, h2, iterEvents], by simpa [runLoop] using h3⟩

/-- Witness for `C7_loop_resilient`: one transport error followed by one
unexpected error; the loop is still running and has slept 30 s after
each. -/
theorem C7_loop_resilient_witness :
    IterEnd.cancelled ∉ [IterEnd.mqttErr, IterEnd.otherErr] ∧
    ((runLoop [IterEnd.mqttErr, IterEnd.otherErr]).2 = true ∧
     (runLoop [IterEnd.mqttErr, IterEnd.otherErr]).1 =
       [IterEnd.mqttErr, IterEnd.otherErr].flatMap iterEvents ∧
     (runLoop ([IterEnd.mqttErr, IterEnd.otherErr] ++ [.cancelled])).2 =
       false) :=
  ⟨by decide, C7_loop_resilient [IterEnd.mqttErr, IterEnd.otherErr]
     (by decide)⟩

/-- C9: if a registered callback raises while the listener dispatches a
message, the exception propagates out of the dispatch (`asyncio.gather`)
into the run loop: the message pump aborts — none of the later messages of
that connection, whatever their datasets, is dispatched — and the loop
tears the MQTT connection down, is caught by the generic handler, sleeps
30 seconds, and re-enters the connect-and-subscribe cycle. -/
theorem C9_callback_error_propagates (ns : NotificationService)
    (raises : CbId → Bool) (m : Msg) (rest : List Msg)
    (cbs : List (String × CbId)) (c : CbId) (rest₂ : List IterEnd)
    (h : dictLookup m.datasetName ns.callbacks = some cbs)
    (hc : (cbs.map Prod.snd).find? raises = some c) :
    dispatchMessage ns raises m = .error (.cbError c) ∧
    processMsgs ns raises (m :: rest) = ([], some (.cbError c)) ∧
    runLoop (.otherErr :: rest₂) =
      ([.connect, .subscribe, .teardown, .caughtOther, .sleepSecs 30]
        ++ (runLoop rest₂).1, (runLoop rest₂).2) := by
  have hd : dispatchMessage ns raises m = .error (.cbError c) := by
    simp [dispatchMessage, h, hc]
  exact ⟨hd, by simp [processMsgs, hd], by simp [runLoop, iterEvents]⟩

/-- Witness for `C9_callback_error_propagates`: callback 2 (of two
registered under the observations dataset) raises; a pending
radar-forecast message is never dispatched. -/
theorem C9_callback_error_propagates_witness :
    dictLookup "10-minute-in-situ-meteorological-observations"
        (⟨[("10-minute-in-situ-meteorological-observations",
            [("a", 1), ("b", 2)]),
           ("radar_forecast", [("cam", 3)]),
           ("harmonie_arome_cy43_p1", [])]⟩ :
          NotificationService).callbacks = some [("a", 1), ("b", 2)] ∧
    ([("a", 1), ("b", 2)].map Prod.snd).find? (fun c => c == 2) = some 2 ∧
    (dispatchMessage
        ⟨[("10-minute-in-situ-meteorological-observations",
            [("a", 1), ("b", 2)]),
           ("radar_forecast", [("cam", 3)]),
           ("harmonie_arome_cy43_p1", [])]⟩ (fun c => c == 2)
        ⟨"10-minute-in-situ-meteorological-observations", 0⟩ =
      .error (.cbError 2) ∧
    processMsgs
        ⟨[("10-minute-in-situ-meteorological-observations",
            [("a", 1), ("b", 2)]),
           ("radar_forecast", [("cam", 3)]),
           ("harmonie_arome_cy43_p1", [])]⟩ (fun c => c == 2)
        [⟨"10-minute-in-situ-meteorological-observations", 0⟩,
         ⟨"radar_forecast", 1⟩] = ([], some (.cbError 2)) ∧
    runLoop [.otherErr] =
      ([.connect, .subscribe, .teardown, .caughtOther, .sleepSecs 30]
        ++ (runLoop []).1, (runLoop []).2)) :=
  ⟨by decide, by decide,
   C9_callback_error_propagates _ (fun c => c == 2)
     ⟨"10-minute-in-situ-meteorological-observations", 0⟩
     [⟨"radar_forecast", 1⟩] [("a", 1), ("b", 2)] 2 []
     (by decide) (by decide)⟩

end NLWeather
